import Mathlib

/-!
Verification of the watering/growth scheduling and history model of the
Plant-Care-App repository, shallowly embedded in Lean.

Modelling conventions:
* JavaScript `Date` values are milliseconds since the epoch, as `Int`
  (`Date.prototype.getTime`).  The clock is a fixed-offset (DST-free)
  clock with offset 0, so one calendar day is exactly `msPerDay`
  milliseconds and `setHours(0,0,0,0)` is flooring to a multiple of
  `msPerDay`.  ISO date strings stored on records are modelled by their
  numeric timestamps (the code always compares them via `getTime()`).
* `undefined`/absent optional fields are `Option.none`.
* JavaScript numbers occurring in the chart-scale computation are
  modelled as rationals (`ℚ`), so `* 1.2` is `* (6/5)`.
-/

/-- Milliseconds in one day, `1000 * 60 * 60 * 24` from the source. -/
def msPerDay : Int := 1000 * 60 * 60 * 24

/-- `d.setHours(0, 0, 0, 0)`: zero the time-of-day component, i.e. floor the
timestamp to the enclosing local midnight (offset 0, fixed-length days). -/
def normalizeToMidnight (t : Int) : Int := t - t % msPerDay

/-- `Math.ceil(a / b)` for integer `a` and positive integer `b`. -/
def ceilDiv (a b : Int) : Int := -((-a) / b)

/-- `calculateDaysUntilWatering` from `src/App.tsx` (the identical inline
computation also appears in `PlantCard` and `PlantDetailModal`):
`nextWatering = lastWatered + wateringFrequency days` (via
`setDate(getDate() + wateringFrequency)`, which adds exactly that many
calendar days), both `nextWatering` and `today` are normalized to midnight,
and the difference in milliseconds is divided by one day and ceiled.
`lastWatered` is the stored timestamp and `now` the moment of invocation. -/
def calculateDaysUntilWatering (lastWatered : Int) (wateringFrequency : Int)
    (now : Int) : Int :=
  let nextWatering := lastWatered + wateringFrequency * msPerDay
  let today := normalizeToMidnight now
  let nextWateringForDiff := normalizeToMidnight nextWatering
  let diffTime := nextWateringForDiff - today
  ceilDiv diffTime msPerDay

theorem msPerDay_pos : 0 < msPerDay := by decide

/-- Normalizing a timestamp that is `n` days plus a time-of-day `s` yields
exactly `n` days. -/
theorem normalizeToMidnight_add (n s : Int) (h0 : 0 ≤ s) (h1 : s < msPerDay) :
    normalizeToMidnight (n * msPerDay + s) = n * msPerDay := by
  unfold normalizeToMidnight
  have hmod : (n * msPerDay + s) % msPerDay = s := by
    rw [add_comm, Int.add_mul_emod_self]
    exact Int.emod_eq_of_lt h0 h1
  omega

/-- `ceilDiv` is exact on whole multiples of the divisor. -/
theorem ceilDiv_mul_self (m : Int) : ceilDiv (m * msPerDay) msPerDay = m := by
  unfold ceilDiv
  rw [show -(m * msPerDay) = (-m) * msPerDay by ring]
  rw [Int.mul_ediv_cancel _ (by decide : msPerDay ≠ 0)]
  ring

/-- On any invocation moment falling on calendar day `D + F + j` (for the
stored watering day `D`), the computed value is `-j`, independently of both
times-of-day. -/
theorem calculateDaysUntilWatering_eq (D F j s u : Int)
    (hs0 : 0 ≤ s) (hs1 : s < msPerDay) (hu0 : 0 ≤ u) (hu1 : u < msPerDay) :
    calculateDaysUntilWatering (D * msPerDay + s) F ((D + F + j) * msPerDay + u)
      = -j := by
  show ceilDiv (normalizeToMidnight (D * msPerDay + s + F * msPerDay) -
      normalizeToMidnight ((D + F + j) * msPerDay + u)) msPerDay = -j
  have h1 : D * msPerDay + s + F * msPerDay = (D + F) * msPerDay + s := by ring
  rw [h1, normalizeToMidnight_add _ _ hs0 hs1, normalizeToMidnight_add _ _ hu0 hu1]
  have h2 : (D + F) * msPerDay - (D + F + j) * msPerDay = (-j) * msPerDay := by
    ring
  rw [h2, ceilDiv_mul_self]

/-! ## Data model (`src/types.ts`, plus the `nickname` field used throughout
the components) -/

/-- A growth measurement (`GrowthEntry` in `src/types.ts`).  The ISO date
string is modelled by its timestamp; `height` (a JS number, cm) by a
rational. -/
structure GrowthEntry where
  id : String
  date : Int
  height : ℚ
  notes : Option String
deriving DecidableEq, Repr

/-- A tracked plant (`Plant` in `src/types.ts`).  `wateringHistory` and
`growthHistory` are `Option`s because legacy records may lack them
(`undefined`), which the code handles with `|| [plant.lastWatered]` and
`|| []` fallbacks. -/
structure Plant where
  id : String
  name : String
  nickname : Option String
  wateringFrequency : Int
  sunlight : String
  temperature : String
  lastWatered : Int
  imageUrl : String
  wateringHistory : Option (List Int)
  notes : Option String
  growthHistory : Option (List GrowthEntry)
deriving DecidableEq, Repr

/-- The care-info provider's response (`getPlantCareInfo`):
`{wateringFrequency, sunlight, temperature}`. -/
structure CareInfo where
  wateringFrequency : Int
  sunlight : String
  temperature : String
deriving DecidableEq, Repr

/-- Normalized bounding box of a detected issue (`BoundingBox` in
`src/types.ts`). -/
structure BoundingBox where
  x1 : ℚ
  y1 : ℚ
  x2 : ℚ
  y2 : ℚ
deriving DecidableEq, Repr

/-- One potential issue of a health report. -/
structure PotentialIssue where
  issue : String
  possibleCause : String
  boundingBox : Option BoundingBox
deriving DecidableEq, Repr

/-- The vision-analysis provider's health report (`AiHealthReport` in
`src/types.ts`). -/
structure AiHealthReport where
  isMatch : Bool
  mismatchMessage : Option String
  healthScore : Option ℚ
  overallAssessment : Option String
  positiveSigns : Option (List String)
  potentialIssues : Option (List PotentialIssue)
  recommendations : Option (List String)
deriving DecidableEq, Repr

/-! ## Operations on the plant store (`src/App.tsx`) -/

/-- The plant record constructed by `handleAddPlant` on provider success
(`src/App.tsx` lines 140-148): care-info fields are spread in, the history
is seeded with the creation-time watering date, notes start empty, and no
`nickname`/`growthHistory` fields exist yet. -/
def createPlantRecord (newId : String) (plantName : String) (careInfo : CareInfo)
    (lastWateredDate : Int) (imageDataUrl : String) : Plant :=
  { id := newId
    name := plantName
    nickname := none
    wateringFrequency := careInfo.wateringFrequency
    sunlight := careInfo.sunlight
    temperature := careInfo.temperature
    lastWatered := lastWateredDate
    imageUrl := imageDataUrl
    wateringHistory := some [lastWateredDate]
    notes := some ""
    growthHistory := none }

/-- `handleAddPlant` (`src/App.tsx` lines 130-160), with the asynchronous
care-info call made explicit as an `Except` argument.  It returns the new
plant list together with the error banner (`setError`) value: on provider
failure nothing is appended and the fixed message is surfaced; on success
the new record is appended and the error is cleared. -/
def handleAddPlant (newId : String) (plantName : String) (imageDataUrl : String)
    (lastWateredDate : Int) (careInfoResult : Except String CareInfo)
    (plants : List Plant) : List Plant × Option String :=
  match careInfoResult with
  | Except.error _ =>
      (plants, some "Failed to add plant. Could not get care info. Please try again.")
  | Except.ok careInfo =>
      (plants ++ [createPlantRecord newId plantName careInfo lastWateredDate imageDataUrl],
       none)

/-- The per-plant update of `handleWaterPlant` (`src/App.tsx` lines 165-177):
prepend `now` to the history (seeding it from `lastWatered` when the array
is absent), truncate to the first 10 entries when the prepend overflowed
(`newHistory.splice(10)`), and set `lastWatered` to `now`. -/
def waterPlantRecord (now : Int) (p : Plant) : Plant :=
  let newHistory := now :: p.wateringHistory.getD [p.lastWatered]
  let boundedHistory := if newHistory.length > 10 then newHistory.take 10 else newHistory
  { p with lastWatered := now, wateringHistory := some boundedHistory }

/-- `handleWaterPlant` (`src/App.tsx` lines 162-183): map over the stored
list, updating exactly the records whose `id` matches. -/
def handleWaterPlant (plantId : String) (now : Int) (plants : List Plant) :
    List Plant :=
  plants.map fun p => if p.id = plantId then waterPlantRecord now p else p

/-- A sequence of watering events applied to one record, oldest event
first. -/
def waterSeq (times : List Int) (p : Plant) : Plant :=
  times.foldl (fun q t => waterPlantRecord t q) p

/-- The ascending-by-date order used by `handleAddGrowthEntry`'s comparator
`(a, b) => new Date(a.date).getTime() - new Date(b.date).getTime()`. -/
def growthDateLE (a b : GrowthEntry) : Prop := a.date ≤ b.date

instance : DecidableRel growthDateLE := fun a b => Int.decLe a.date b.date

instance : IsTotal GrowthEntry growthDateLE := ⟨fun a b => le_total a.date b.date⟩

instance : IsTrans GrowthEntry growthDateLE :=
  ⟨fun _ _ _ hab hbc => le_trans hab hbc⟩

/-- `handleAddGrowthEntry` (`src/App.tsx` lines 207-232), with the fresh
`crypto.randomUUID()` made explicit as the `id` of the already-assembled
entry: append the entry to the (possibly absent, then empty) growth history
of the matching plant and re-sort the whole collection ascending by date.
JavaScript's `Array.prototype.sort` is stable; it is modelled by the stable
`List.insertionSort`. -/
def addGrowthToRecord (newEntry : GrowthEntry) (p : Plant) : Plant :=
  let updatedHistory :=
    List.insertionSort growthDateLE (p.growthHistory.getD [] ++ [newEntry])
  { p with growthHistory := some updatedHistory }

def handleAddGrowthEntry (plantId : String) (newEntry : GrowthEntry)
    (plants : List Plant) : List Plant :=
  plants.map fun p => if p.id = plantId then addGrowthToRecord newEntry p else p

/-- The form guard of `handleAddGrowthSubmit`
(`src/components/PlantDetailModal.tsx` lines 53-68):
`parseFloat` is modelled as `Option ℚ` (`none` for an empty/unparsable
field, i.e. `NaN`); `if (!heightValue || heightValue <= 0) return;` rejects
`NaN`, `0` and negatives, and otherwise `onAddGrowthEntry` runs with the
parsed height. -/
def handleAddGrowthSubmit (plantId : String) (newId : String)
    (heightInput : Option ℚ) (date : Int) (notes : String)
    (plants : List Plant) : List Plant :=
  match heightInput with
  | none => plants
  | some heightValue =>
      if heightValue = 0 ∨ heightValue ≤ 0 then plants
      else
        handleAddGrowthEntry plantId
          { id := newId, date := date, height := heightValue, notes := some notes }
          plants

/-! ## Health-check flow (`src/App.tsx` lines 105-128,
`src/components/AIHealthCheckModal.tsx`) -/

/-- The slice of `App` component state touched by `handleHealthCheck`. -/
structure AppState where
  plants : List Plant
  selectedPlant : Option Plant
  healthReport : Option AiHealthReport
  error : Option String
  isLoading : Bool
  healthCheckImageUrl : Option String
  healthCheckModalOpen : Bool
deriving DecidableEq, Repr

/-- `handleHealthCheck` (`src/App.tsx` lines 105-128), with the asynchronous
vision-provider call made explicit as an `Except` argument: the selected
plant, preview image and modal flags are set, then on success the report is
stored and on failure the error message (the thrown `Error`'s message, or
the fixed fallback) is stored; loading is cleared at the end.  The plant
list is never touched. -/
def handleHealthCheck (plant : Plant) (imageUrl : String)
    (reportResult : Except String AiHealthReport) (s : AppState) : AppState :=
  let s1 := { s with selectedPlant := some plant, healthReport := none,
                     error := none, healthCheckImageUrl := some imageUrl,
                     healthCheckModalOpen := true, isLoading := true }
  let s2 :=
    match reportResult with
    | Except.ok reportData => { s1 with healthReport := some reportData }
    | Except.error errorMessage =>
        { s1 with error := some errorMessage, healthReport := none }
  { s2 with isLoading := false }

/-- The `isMatch === false` branch of `AIHealthCheckModal`
(`src/components/AIHealthCheckModal.tsx` lines 206-216): the text shown to
the user is exactly `reportData.mismatchMessage`; for a matching report
this branch renders nothing. -/
def mismatchTextShown (reportData : AiHealthReport) : Option String :=
  if reportData.isMatch = false then reportData.mismatchMessage else none

/-! ## Watering status texts -/

/-- `wateringStatusText` of `PlantCard` (`src/unnamed/part_001` lines
78-83), as a function of the computed `daysUntilWatering`
(`isOverdue = daysUntilWatering < 0`). -/
def wateringStatusText (daysUntilWatering : Int) : String :=
  if daysUntilWatering < 0 then
    "Overdue by " ++ toString daysUntilWatering.natAbs ++ " day(s)"
  else if daysUntilWatering = 0 then "Needs watering today!"
  else if daysUntilWatering = 1 then "Water in 1 day"
  else "Water in " ++ toString daysUntilWatering ++ " days"

/-- The status text of `PlantDetailModal`
(`src/components/PlantDetailModal.tsx` lines 39-43): sequential
reassignments to `statusText`, the last applicable one winning. -/
def detailWateringStatusText (diffDays : Int) : String :=
  let statusText := "In " ++ toString diffDays ++ " days"
  let statusText := if diffDays < 0 then
    "Overdue by " ++ toString diffDays.natAbs ++ " days" else statusText
  let statusText := if diffDays = 0 then "Today" else statusText
  let statusText := if diffDays = 1 then "In 1 day" else statusText
  statusText

/-! ## Watering chart (`src/components/WateringChart.tsx`) -/

/-- `Math.max` on two integers, written out so that it evaluates. -/
def jsMax (a b : Int) : Int := if a < b then b else a

theorem jsMax_eq_max (a b : Int) : jsMax a b = max a b := by
  unfold jsMax
  rw [max_def]
  split_ifs <;> omega

/-- The `useMemo` body of `WateringChart` (`src/components/WateringChart.tsx`
lines 9-36).  Returns `(data, maxDays)`: `data` lists, for each consecutive
chronological pair, the later timestamp (the bar's date label renders from
it) paired with `diffDays = ceil(|later - earlier| / 1 day)`, sliced to the
last 8; `maxDays` is `max(max over ALL computed intervals with floor 0,
idealFrequency) * 1.2`, computed before the slice. -/
def wateringChartMemo (history : List Int) (idealFrequency : Int) :
    List (Int × Int) × ℚ :=
  if history.length < 2 then ([], (idealFrequency : ℚ))
  else
    let chronologicalHistory := history.reverse
    let chartData := List.zipWith
      (fun dateCurrent datePrevious =>
        (dateCurrent, ceilDiv ((dateCurrent - datePrevious).natAbs : Int) msPerDay))
      (chronologicalHistory.drop 1) chronologicalHistory
    let maxDataValue : Int := (chartData.map (fun d => d.2)).foldr jsMax 0
    let overallMax : ℚ := ((jsMax maxDataValue idealFrequency : Int) : ℚ) * (6 / 5)
    (chartData.drop (chartData.length - 8), overallMax)

/-! ## Spec-side definitions (for refinement / comparison only) -/

/-- Modelled from the spec's words, for comparison with `wateringChartMemo`:
"from a newest-first history of at least 2 timestamps, reverse to
chronological order, then for each consecutive pair compute
`diffDays = ceil(abs(t[i] - t[i-1]) / 1 day)`, labeled with the date of the
later timestamp in the pair.  Only the most recent 8 intervals are
retained." -/
def wateringSeriesSpec (history : List Int) : List (Int × Int) :=
  if history.length < 2 then []
  else
    let t := history.reverse
    let series := (List.range (t.length - 1)).map fun i =>
      (t.getD (i + 1) 0, ceilDiv ((t.getD (i + 1) 0 - t.getD i 0).natAbs : Int) msPerDay)
    series.drop (series.length - 8)

/-- Modelled from the spec's words, for comparison with `wateringChartMemo`:
"the chart's vertical scale equals `max(max(intervals), idealFrequency) *
1.2`, where `intervals` are the retained (displayed, at most 8 most recent)
interval values". -/
def retainedScaleSpec (history : List Int) (idealFrequency : Int) : ℚ :=
  let retained := ((wateringChartMemo history idealFrequency).1.map fun d => d.2)
  ((jsMax (retained.foldr jsMax 0) idealFrequency : Int) : ℚ) * (6 / 5)

/-! ## Pairwise-consecutive helper -/

theorem zipWith_cons_self_eq_range_map {β : Type} (f : Int → Int → β) :
    ∀ (xs : List Int) (x : Int),
      List.zipWith f xs (x :: xs)
        = (List.range xs.length).map
            (fun i => f (xs.getD i 0) ((x :: xs).getD i 0)) := by
  intro xs
  induction xs with
  | nil => intro x; simp
  | cons y ys ih =>
      intro x
      simp only [List.zipWith_cons_cons, List.length_cons,
        List.range_succ_eq_map, List.map_cons, List.map_map]
      rw [ih y]
      rfl

/-- The consecutive-pair traversal `zipWith f (t.drop 1) t` written with
explicit indices, as the spec describes it. -/
theorem zipWith_drop_one_eq_range_map {β : Type} (f : Int → Int → β)
    (t : List Int) :
    List.zipWith f (t.drop 1) t
      = (List.range (t.length - 1)).map
          (fun i => f (t.getD (i + 1) 0) (t.getD i 0)) := by
  cases t with
  | nil => simp
  | cons x xs =>
      simp only [List.drop_succ_cons, List.drop_zero, List.length_cons,
        Nat.add_sub_cancel]
      rw [zipWith_cons_self_eq_range_map f xs x]
      rfl

/-! ## C1 -/

/-- C1: for every `lastWatered` calendar date `D` (stored with any
time-of-day `s`) and every `wateringFrequency F ≥ 1`, `daysUntilWatering`
equals `0` when invoked on day `D + F`, `1` on day `D + F - 1`, and `-k` on
day `D + F + k` for every `k ≥ 1`, independently of the wall-clock
time-of-day `u` of the invocation: both sides are normalized to midnight
before the ceiled day difference. -/
theorem c1_daysUntilWatering_calendar (D F s u : Int) (_hF : 1 ≤ F)
    (hs0 : 0 ≤ s) (hs1 : s < msPerDay) (hu0 : 0 ≤ u) (hu1 : u < msPerDay) :
    calculateDaysUntilWatering (D * msPerDay + s) F ((D + F) * msPerDay + u) = 0 ∧
    calculateDaysUntilWatering (D * msPerDay + s) F ((D + F - 1) * msPerDay + u) = 1 ∧
    ∀ k : Int, 1 ≤ k →
      calculateDaysUntilWatering (D * msPerDay + s) F ((D + F + k) * msPerDay + u)
        = -k := by
  refine ⟨?_, ?_, ?_⟩
  · have h := calculateDaysUntilWatering_eq D F 0 s u hs0 hs1 hu0 hu1
    simpa using h
  · have h := calculateDaysUntilWatering_eq D F (-1) s u hs0 hs1 hu0 hu1
    have he : D + F + -1 = D + F - 1 := by ring
    rw [he] at h
    simpa using h
  · intro k _
    exact calculateDaysUntilWatering_eq D F k s u hs0 hs1 hu0 hu1

/-- Witness for C1 at `D = 0`, `F = 7`, `s = 5`, `u = 12345`, `k = 3`. -/
theorem c1_daysUntilWatering_calendar_witness :
    calculateDaysUntilWatering (0 * msPerDay + 5) 7 ((0 + 7) * msPerDay + 12345) = 0 ∧
    calculateDaysUntilWatering (0 * msPerDay + 5) 7 ((0 + 7 - 1) * msPerDay + 12345) = 1 ∧
    calculateDaysUntilWatering (0 * msPerDay + 5) 7 ((0 + 7 + 3) * msPerDay + 12345) = -3 := by
  have h := c1_daysUntilWatering_calendar 0 7 5 12345 (by decide) (by decide)
    (by decide) (by decide) (by decide)
  exact ⟨h.1, h.2.1, h.2.2 3 (by decide)⟩

/-! ## C2 -/

/-- The effective history read by the watering handler: the stored array,
or the single-element seed `[lastWatered]` when the array is absent. -/
def effectiveHistory (p : Plant) : List Int :=
  p.wateringHistory.getD [p.lastWatered]

/-- After a watering event the stored history is always the first 10
elements of `now` prepended to the effective prior history. -/
theorem waterPlantRecord_history (now : Int) (p : Plant) :
    (waterPlantRecord now p).wateringHistory
      = some ((now :: effectiveHistory p).take 10) := by
  unfold waterPlantRecord effectiveHistory
  by_cases h : (now :: p.wateringHistory.getD [p.lastWatered]).length > 10
  · simp [h]
  · have hle : (now :: p.wateringHistory.getD [p.lastWatered]).length ≤ 10 := by omega
    simp [h, List.take_of_length_le hle]

theorem waterPlantRecord_lastWatered (now : Int) (p : Plant) :
    (waterPlantRecord now p).lastWatered = now := rfl

/-- Example stored plant used to instantiate hypotheses of the claims. -/
def examplePlant (hist : Option (List Int)) (lastWatered : Int) : Plant :=
  { id := "p1"
    name := "monstera"
    nickname := none
    wateringFrequency := 7
    sunlight := "Bright, indirect light"
    temperature := "18-29"
    lastWatered := lastWatered
    imageUrl := "img"
    wateringHistory := hist
    notes := none
    growthHistory := none }

/-- C2: recording a watering event always succeeds (the update is a total
function); for every prior history — including an absent one, which is
first seeded as `[lastWatered]` — the event's timestamp `now` becomes the
first element of the stored history and `lastWatered`; the history is kept
as-is when the prepend stays within 10 elements and truncated to the first
10 when the prepend overflowed; and after 11 sequential watering events from
a freshly created plant, the history has length exactly 10 and holds
exactly the 10 most recent events, newest first. -/
theorem c2_waterPlant_event (p : Plant) (now : Int) :
    ((waterPlantRecord now p).lastWatered = now ∧
     ((waterPlantRecord now p).wateringHistory.getD []).head? = some now ∧
     ((now :: effectiveHistory p).length ≤ 10 →
       (waterPlantRecord now p).wateringHistory = some (now :: effectiveHistory p)) ∧
     ((now :: effectiveHistory p).length > 10 →
       (waterPlantRecord now p).wateringHistory
         = some ((now :: effectiveHistory p).take 10))) ∧
    ∀ (newId plantName imgUrl : String) (careInfo : CareInfo)
      (t0 t1 t2 t3 t4 t5 t6 t7 t8 t9 t10 t11 : Int),
      (waterSeq [t1, t2, t3, t4, t5, t6, t7, t8, t9, t10, t11]
          (createPlantRecord newId plantName careInfo t0 imgUrl)).wateringHistory
        = some [t11, t10, t9, t8, t7, t6, t5, t4, t3, t2] := by
  constructor
  · refine ⟨rfl, ?_, ?_, ?_⟩
    · rw [waterPlantRecord_history]
      simp [List.take_succ_cons]
    · intro hle
      rw [waterPlantRecord_history, List.take_of_length_le hle]
    · intro _
      exact waterPlantRecord_history now p
  · intro newId plantName imgUrl careInfo t0 t1 t2 t3 t4 t5 t6 t7 t8 t9 t10 t11
    simp [waterSeq, waterPlantRecord, createPlantRecord, effectiveHistory]

/-- Witness for C2: a two-entry history stays untruncated, a ten-entry
history is truncated to 10. -/
theorem c2_waterPlant_event_witness :
    (waterPlantRecord 50 (examplePlant (some [20, 10]) 20)).wateringHistory
        = some [50, 20, 10] ∧
    (waterPlantRecord 50 (examplePlant
          (some [10, 9, 8, 7, 6, 5, 4, 3, 2, 1]) 10)).wateringHistory
        = some [50, 10, 9, 8, 7, 6, 5, 4, 3, 2] := by
  constructor
  · have h := (c2_waterPlant_event (examplePlant (some [20, 10]) 20) 50).1.2.2.1
      (by decide)
    simpa [effectiveHistory, examplePlant] using h
  · have h := (c2_waterPlant_event
        (examplePlant (some [10, 9, 8, 7, 6, 5, 4, 3, 2, 1]) 10) 50).1.2.2.2
      (by decide)
    simpa [effectiveHistory, examplePlant] using h

/-! ## C3 -/

/-- A plant record reachable through the code's mutations: created by
`handleAddPlant` and mutated only by watering events.  The creation-time
watering date and every event timestamp are arbitrary (the former is typed
into a form, the latter is the wall clock). -/
inductive ReachablePlant : Plant → Prop where
  | created (newId plantName : String) (careInfo : CareInfo)
      (lastWateredDate : Int) (imageDataUrl : String) :
      ReachablePlant (createPlantRecord newId plantName careInfo lastWateredDate imageDataUrl)
  | watered (p : Plant) (now : Int) (hp : ReachablePlant p) :
      ReachablePlant (waterPlantRecord now p)

/-- Reachability under a monotone clock: every watering event's timestamp is
at least every timestamp already in the history (no future-dated creation
date overtaken by the wall clock, no clock regression). -/
inductive MonotonePlant : Plant → Prop where
  | created (newId plantName : String) (careInfo : CareInfo)
      (lastWateredDate : Int) (imageDataUrl : String) :
      MonotonePlant (createPlantRecord newId plantName careInfo lastWateredDate imageDataUrl)
  | watered (p : Plant) (now : Int) (hp : MonotonePlant p)
      (hmono : ∀ t ∈ effectiveHistory p, t ≤ now) :
      MonotonePlant (waterPlantRecord now p)

/-- Under a monotone clock the stored history exists, starts with
`lastWatered`, and is bounded by it. -/
theorem monotonePlant_head_bound (p : Plant) (h : MonotonePlant p) :
    ∃ l, p.wateringHistory = some l ∧ l.head? = some p.lastWatered ∧
      ∀ x ∈ l, x ≤ p.lastWatered := by
  induction h with
  | created newId plantName careInfo lastWateredDate imageDataUrl =>
      exact ⟨[lastWateredDate], rfl, rfl, by simp [createPlantRecord]⟩
  | watered p now hp hmono ih =>
      refine ⟨(now :: effectiveHistory p).take 10, waterPlantRecord_history now p,
        ?_, ?_⟩
      · rw [waterPlantRecord_lastWatered]
        simp [List.take_succ_cons]
      · intro x hx
        rw [waterPlantRecord_lastWatered]
        rcases List.mem_cons.mp (List.take_subset _ _ hx) with h1 | h2
        · exact le_of_eq h1
        · exact hmono x h2

def exampleCareInfo : CareInfo :=
  { wateringFrequency := 7
    sunlight := "Bright, indirect light"
    temperature := "18-29" }

/-- Counterexample to C3 as stated: the record created with watering date
`100` and then watered at wall-clock time `50` (the code lets the
creation-time watering date lie in the future of a later watering event) is
reachable, yet `lastWatered = 50` is not the maximum `100` of its history
`[50, 100]`. -/
theorem c3_lastWatered_not_max_counterexample :
    ReachablePlant (waterPlantRecord 50
        (createPlantRecord "a" "monstera" exampleCareInfo 100 "img")) ∧
    (waterPlantRecord 50
        (createPlantRecord "a" "monstera" exampleCareInfo 100 "img")).wateringHistory
      = some [50, 100] ∧
    (waterPlantRecord 50
        (createPlantRecord "a" "monstera" exampleCareInfo 100 "img")).lastWatered = 50 ∧
    ¬ (([50, 100] : List Int).maximum = ((50 : Int) : WithBot Int)) := by
  refine ⟨ReachablePlant.watered _ _ (ReachablePlant.created _ _ _ _ _), ?_, rfl, ?_⟩
  · rw [waterPlantRecord_history]
    simp [effectiveHistory, createPlantRecord]
  · decide

/-- C3 amended: for every reachable plant record the watering history is
non-empty (seeded at creation) and has at most 10 entries; the third
invariant `lastWatered = max(wateringHistory)` holds provided every
watering event's timestamp is at least every timestamp already stored
(monotone clock, creation date not in the future) — without that proviso it
fails, as the counterexample shows. -/
theorem c3_plant_invariants_amended :
    (∀ p : Plant, ReachablePlant p →
      p.wateringHistory.getD [] ≠ [] ∧ (p.wateringHistory.getD []).length ≤ 10) ∧
    (∀ p : Plant, MonotonePlant p →
      (p.wateringHistory.getD []).maximum = (p.lastWatered : WithBot Int)) := by
  constructor
  · intro p hp
    induction hp with
    | created newId plantName careInfo lastWateredDate imageDataUrl =>
        simp [createPlantRecord]
    | watered p now hp ih =>
        rw [waterPlantRecord_history]
        constructor
        · simp [List.take_succ_cons]
        · simp
  · intro p hp
    obtain ⟨l, hl, hhead, hle⟩ := monotonePlant_head_bound p hp
    rw [hl]
    have hmem : p.lastWatered ∈ l := by
      cases l with
    | nil => simp at hhead
    | cons a t =>
        simp only [List.head?_cons, Option.some.injEq] at hhead
        exact hhead ▸ List.mem_cons_self a t
    exact List.maximum_eq_coe_iff.mpr ⟨hmem, hle⟩

/-- Witness for C3 (amended) on the record created with watering date `100`
and watered, monotonically, at `200`. -/
theorem c3_plant_invariants_amended_witness :
    (waterPlantRecord 200
        (createPlantRecord "a" "monstera" exampleCareInfo 100 "img")).wateringHistory.getD []
      ≠ [] ∧
    ((waterPlantRecord 200
        (createPlantRecord "a" "monstera" exampleCareInfo 100 "img")).wateringHistory.getD []).length
      ≤ 10 ∧
    ((waterPlantRecord 200
        (createPlantRecord "a" "monstera" exampleCareInfo 100 "img")).wateringHistory.getD []).maximum
      = ((200 : Int) : WithBot Int) := by
  have hr : ReachablePlant (waterPlantRecord 200
      (createPlantRecord "a" "monstera" exampleCareInfo 100 "img")) :=
    ReachablePlant.watered _ _ (ReachablePlant.created _ _ _ _ _)
  have hm : MonotonePlant (waterPlantRecord 200
      (createPlantRecord "a" "monstera" exampleCareInfo 100 "img")) :=
    MonotonePlant.watered _ _ (MonotonePlant.created _ _ _ _ _)
      (by simp [effectiveHistory, createPlantRecord])
  refine ⟨(c3_plant_invariants_amended.1 _ hr).1,
    (c3_plant_invariants_amended.1 _ hr).2, ?_⟩
  exact c3_plant_invariants_amended.2 _ hm

/-! ## C4

The timestamps below: `19723 * msPerDay = 1704067200000` is 2024-01-01,
`19730 * msPerDay` is 2024-01-08 and `19732 * msPerDay` is 2024-01-10. -/

/-- Counterexample to C4 as stated: in the claim's own scenario (watered
2024-01-01, frequency 7, checked 2024-01-08) the computed
`daysUntilWatering` is 0, but `PlantCard` renders
"Needs watering today!" — with a trailing exclamation mark, not the
claimed "Needs watering today" — and `PlantDetailModal` renders a different
text again, "Today". -/
theorem c4_statusText_counterexample :
    calculateDaysUntilWatering 1704067200000 7 1704672000000 = 0 ∧
    wateringStatusText 0 = "Needs watering today!" ∧
    wateringStatusText 0 ≠ "Needs watering today" ∧
    detailWateringStatusText 0 = "Today" := by
  refine ⟨by decide, rfl, by decide, rfl⟩

/-- C4 amended: each component's status text is a pure function of
`daysUntilWatering` alone.  `PlantCard` follows the spec table except that
the zero case reads "Needs watering today!" (trailing exclamation mark);
`PlantDetailModal` renders abbreviated texts "Overdue by N days" / "Today" /
"In 1 day" / "In N days".  In the scenario (watered 2024-01-01 with
frequency 7, any times-of-day), `PlantCard` reads "Needs watering today!"
on 2024-01-08 and "Overdue by 2 day(s)" on 2024-01-10. -/
theorem c4_statusText_amended :
    (∀ d : Int,
      (d < 0 → wateringStatusText d
        = "Overdue by " ++ toString d.natAbs ++ " day(s)") ∧
      (d = 0 → wateringStatusText d = "Needs watering today!") ∧
      (d = 1 → wateringStatusText d = "Water in 1 day") ∧
      (1 < d → wateringStatusText d = "Water in " ++ toString d ++ " days")) ∧
    (∀ d : Int,
      (d < 0 → detailWateringStatusText d
        = "Overdue by " ++ toString d.natAbs ++ " days") ∧
      (d = 0 → detailWateringStatusText d = "Today") ∧
      (d = 1 → detailWateringStatusText d = "In 1 day") ∧
      (1 < d → detailWateringStatusText d = "In " ++ toString d ++ " days")) ∧
    (∀ s u : Int, 0 ≤ s → s < msPerDay → 0 ≤ u → u < msPerDay →
      wateringStatusText (calculateDaysUntilWatering (19723 * msPerDay + s) 7
          ((19723 + 7) * msPerDay + u)) = "Needs watering today!" ∧
      wateringStatusText (calculateDaysUntilWatering (19723 * msPerDay + s) 7
          ((19723 + 7 + 2) * msPerDay + u)) = "Overdue by 2 day(s)") := by
  refine ⟨?_, ?_, ?_⟩
  · intro d
    refine ⟨?_, ?_, ?_, ?_⟩
    · intro hd; simp [wateringStatusText, hd]
    · intro hd; subst hd; rfl
    · intro hd; subst hd; rfl
    · intro hd
      simp [wateringStatusText, show ¬ d < 0 by omega, show ¬ d = 0 by omega,
        show ¬ d = 1 by omega]
  · intro d
    refine ⟨?_, ?_, ?_, ?_⟩
    · intro hd
      simp [detailWateringStatusText, hd, show ¬ d = 0 by omega,
        show ¬ d = 1 by omega]
    · intro hd; subst hd; rfl
    · intro hd; subst hd; rfl
    · intro hd
      simp [detailWateringStatusText, show ¬ d < 0 by omega,
        show ¬ d = 0 by omega, show ¬ d = 1 by omega]
  · intro s u hs0 hs1 hu0 hu1
    have h0 := calculateDaysUntilWatering_eq 19723 7 0 s u hs0 hs1 hu0 hu1
    have h2 := calculateDaysUntilWatering_eq 19723 7 2 s u hs0 hs1 hu0 hu1
    constructor
    · rw [show (19723 + 7 : Int) = 19723 + 7 + 0 by ring, h0]
      rfl
    · rw [h2]
      rfl

/-- Witness for C4 (amended) at `daysUntilWatering` −3, 0, 1 and 5, and at
the scenario instantiated with midnight timestamps. -/
theorem c4_statusText_amended_witness :
    wateringStatusText (-3) = "Overdue by 3 day(s)" ∧
    wateringStatusText 0 = "Needs watering today!" ∧
    wateringStatusText 1 = "Water in 1 day" ∧
    wateringStatusText 5 = "Water in 5 days" ∧
    detailWateringStatusText (-3) = "Overdue by 3 days" ∧
    detailWateringStatusText 0 = "Today" ∧
    detailWateringStatusText 1 = "In 1 day" ∧
    detailWateringStatusText 5 = "In 5 days" ∧
    wateringStatusText (calculateDaysUntilWatering (19723 * msPerDay + 0) 7
        ((19723 + 7) * msPerDay + 0)) = "Needs watering today!" ∧
    wateringStatusText (calculateDaysUntilWatering (19723 * msPerDay + 0) 7
        ((19723 + 7 + 2) * msPerDay + 0)) = "Overdue by 2 day(s)" := by
  have h := c4_statusText_amended
  have hsc := h.2.2 0 0 (by decide) (by decide) (by decide) (by decide)
  exact ⟨((h.1 (-3)).1 (by decide)).trans (by decide),
    (h.1 0).2.1 rfl, (h.1 1).2.2.1 rfl,
    ((h.1 5).2.2.2 (by decide)).trans (by decide),
    ((h.2.1 (-3)).1 (by decide)).trans (by decide),
    (h.2.1 0).2.1 rfl, (h.2.1 1).2.2.1 rfl,
    ((h.2.1 5).2.2.2 (by decide)).trans (by decide),
    hsc.1, hsc.2⟩

/-! ## C5 -/

/-- C5: for fewer than 2 stored timestamps the derived watering-interval
series is empty; in general the displayed series is exactly the
spec-described one — reverse the newest-first history to chronological
order, pair each timestamp with its predecessor, take
`ceil(|t[i] - t[i-1]| / 1 day)` labeled by the later timestamp, retain the
most recent 8 — and for `historyLength ≥ 2` its length is
`min(8, historyLength - 1)`. -/
theorem c5_wateringSeries_refines (history : List Int) (idealFrequency : Int) :
    (history.length < 2 → (wateringChartMemo history idealFrequency).1 = []) ∧
    (wateringChartMemo history idealFrequency).1 = wateringSeriesSpec history ∧
    (2 ≤ history.length →
      (wateringChartMemo history idealFrequency).1.length
        = min 8 (history.length - 1)) := by
  by_cases hlen : history.length < 2
  · refine ⟨fun _ => ?_, ?_, fun h2 => absurd h2 (by omega)⟩
    · simp [wateringChartMemo, hlen]
    · simp [wateringChartMemo, wateringSeriesSpec, hlen]
  · have hdata : (wateringChartMemo history idealFrequency).1
        = (List.zipWith
            (fun dateCurrent datePrevious =>
              (dateCurrent,
               ceilDiv ((dateCurrent - datePrevious).natAbs : Int) msPerDay))
            (history.reverse.drop 1) history.reverse).drop
          ((List.zipWith
            (fun dateCurrent datePrevious =>
              (dateCurrent,
               ceilDiv ((dateCurrent - datePrevious).natAbs : Int) msPerDay))
            (history.reverse.drop 1) history.reverse).length - 8) := by
      simp only [wateringChartMemo, hlen, if_false]
    have hzip : (List.zipWith
        (fun dateCurrent datePrevious =>
          (dateCurrent,
           ceilDiv ((dateCurrent - datePrevious).natAbs : Int) msPerDay))
        (history.reverse.drop 1) history.reverse).length
        = history.length - 1 := by
      rw [List.length_zipWith, List.length_drop, List.length_reverse]
      omega
    refine ⟨fun h => absurd h hlen, ?_, fun _ => ?_⟩
    · rw [hdata]
      unfold wateringSeriesSpec
      rw [if_neg hlen,
        zipWith_drop_one_eq_range_map
          (fun dateCurrent datePrevious =>
            (dateCurrent,
             ceilDiv ((dateCurrent - datePrevious).natAbs : Int) msPerDay))
          history.reverse]
    · rw [hdata, List.length_drop, hzip]
      omega

/-- Witness for C5 on a single-timestamp history and on the concrete
three-timestamp history `[2 days, 1 day, 0]` (newest first). -/
theorem c5_wateringSeries_refines_witness :
    (wateringChartMemo [5] 7).1 = [] ∧
    (wateringChartMemo [2 * msPerDay, msPerDay, 0] 7).1
      = wateringSeriesSpec [2 * msPerDay, msPerDay, 0] ∧
    (wateringChartMemo [2 * msPerDay, msPerDay, 0] 7).1.length = 2 := by
  refine ⟨(c5_wateringSeries_refines [5] 7).1 (by decide),
    (c5_wateringSeries_refines [2 * msPerDay, msPerDay, 0] 7).2.1,
    ((c5_wateringSeries_refines [2 * msPerDay, msPerDay, 0] 7).2.2
      (by decide)).trans (by decide)⟩

/-! ## C6 -/

/-- C6: a growth entry is created only for a parsable positive height — for
an empty/unparsable (`NaN`) or non-positive height the plant list, hence
every growth history, is unchanged; for a positive height the caller hands
`handleAddGrowthEntry` the entry assembled with the freshly generated id;
and every insertion re-sorts the full collection so that front-to-back it
is non-decreasing by date, holds a permutation of the old entries plus the
new one, and — when the generated id is indeed absent from the existing
entries (the `crypto.randomUUID()` freshness assumption) — the new entry's
id differs from every other entry's id. -/
theorem c6_growthEntry_insert (plantId newId : String) (date : Int)
    (notes : String) (plants : List Plant) :
    handleAddGrowthSubmit plantId newId none date notes plants = plants ∧
    (∀ heightValue : ℚ, heightValue ≤ 0 →
      handleAddGrowthSubmit plantId newId (some heightValue) date notes plants
        = plants) ∧
    (∀ heightValue : ℚ, 0 < heightValue →
      handleAddGrowthSubmit plantId newId (some heightValue) date notes plants
        = handleAddGrowthEntry plantId
            { id := newId, date := date, height := heightValue, notes := some notes }
            plants) ∧
    (∀ (newEntry : GrowthEntry) (p : Plant),
      ((addGrowthToRecord newEntry p).growthHistory.getD []).Pairwise growthDateLE ∧
      ((addGrowthToRecord newEntry p).growthHistory.getD []).Perm
        (p.growthHistory.getD [] ++ [newEntry]) ∧
      newEntry ∈ (addGrowthToRecord newEntry p).growthHistory.getD [] ∧
      ((∀ e ∈ p.growthHistory.getD [], e.id ≠ newEntry.id) →
        ∀ e ∈ (addGrowthToRecord newEntry p).growthHistory.getD [],
          e ≠ newEntry → e.id ≠ newEntry.id)) := by
  refine ⟨rfl, ?_, ?_, ?_⟩
  · intro heightValue hle
    simp [handleAddGrowthSubmit, hle]
  · intro heightValue hpos
    have hcond : ¬ (heightValue = 0 ∨ heightValue ≤ 0) := by
      push_neg
      exact ⟨hpos.ne', hpos⟩
    simp [handleAddGrowthSubmit, hcond]
  · intro newEntry p
    have hperm : (List.insertionSort growthDateLE
        (p.growthHistory.getD [] ++ [newEntry])).Perm
        (p.growthHistory.getD [] ++ [newEntry]) :=
      List.perm_insertionSort growthDateLE _
    have hget : (addGrowthToRecord newEntry p).growthHistory.getD []
        = List.insertionSort growthDateLE (p.growthHistory.getD [] ++ [newEntry]) :=
      rfl
    refine ⟨?_, ?_, ?_, ?_⟩
    · rw [hget]
      exact List.sorted_insertionSort growthDateLE _
    · rw [hget]
      exact hperm
    · rw [hget, hperm.mem_iff]
      simp
    · intro hfresh e hmem hne
      rw [hget, hperm.mem_iff] at hmem
      rcases List.mem_append.mp hmem with hold | hnew
      · exact hfresh e hold
      · exact absurd (List.mem_singleton.mp hnew) hne

/-- Witness for C6: a rejected non-positive entry, an accepted one, and the
insertion effects on the stored example plant. -/
theorem c6_growthEntry_insert_witness :
    handleAddGrowthSubmit "p1" "g1" (some (-1)) 5 "x" [examplePlant none 3]
      = [examplePlant none 3] ∧
    handleAddGrowthSubmit "p1" "g1" (some 2) 5 "x" [examplePlant none 3]
      = handleAddGrowthEntry "p1"
          { id := "g1", date := 5, height := 2, notes := some "x" }
          [examplePlant none 3] ∧
    ((addGrowthToRecord { id := "g1", date := 5, height := 2, notes := some "x" }
        (examplePlant none 3)).growthHistory.getD []).Pairwise growthDateLE ∧
    (∀ e ∈ (addGrowthToRecord
          { id := "g1", date := 5, height := 2, notes := some "x" }
          (examplePlant none 3)).growthHistory.getD [],
        e ≠ { id := "g1", date := 5, height := 2, notes := some "x" } →
          e.id ≠ "g1") := by
  have h := c6_growthEntry_insert "p1" "g1" 5 "x" [examplePlant none 3]
  have h4 := h.2.2.2 { id := "g1", date := 5, height := 2, notes := some "x" }
    (examplePlant none 3)
  exact ⟨h.2.1 (-1) (by norm_num), h.2.2.1 2 (by norm_num), h4.1,
    h4.2.2.2 (by simp [examplePlant])⟩

/-! ## C7 -/

/-- C7: when the care-info provider call fails during plant creation, the
creation aborts entirely — the plant list is returned exactly as it was,
with no partial record appended — and the failure is surfaced only as the
fixed human-readable error string. -/
theorem c7_addPlant_abort_on_provider_error (newId plantName imageDataUrl : String)
    (lastWateredDate : Int) (providerError : String) (plants : List Plant) :
    (handleAddPlant newId plantName imageDataUrl lastWateredDate
        (Except.error providerError) plants).1 = plants ∧
    (handleAddPlant newId plantName imageDataUrl lastWateredDate
        (Except.error providerError) plants).2
      = some "Failed to add plant. Could not get care info. Please try again." :=
  ⟨rfl, rfl⟩

/-! ## C8 -/

/-- C8: the health-check flow never writes to the plant list — for every
outcome of the vision-provider call the stored plants (hence every
`healthScore`/`overallAssessment` and every other plant field) are left
completely unchanged — and for a response with `isMatch: false` the modal
surfaces exactly `mismatchMessage` while the report is only held in the
modal's own state. -/
theorem c8_healthCheck_never_mutates_plants (plant : Plant) (imageUrl : String)
    (reportResult : Except String AiHealthReport) (s : AppState) :
    (handleHealthCheck plant imageUrl reportResult s).plants = s.plants ∧
    (∀ reportData : AiHealthReport, reportData.isMatch = false →
      mismatchTextShown reportData = reportData.mismatchMessage ∧
      (handleHealthCheck plant imageUrl (Except.ok reportData) s).plants = s.plants ∧
      (handleHealthCheck plant imageUrl (Except.ok reportData) s).healthReport
        = some reportData) := by
  constructor
  · cases reportResult <;> rfl
  · intro reportData hmm
    exact ⟨by simp [mismatchTextShown, hmm], rfl, rfl⟩

/-- Witness for C8 on a concrete mismatch report and state. -/
theorem c8_healthCheck_never_mutates_plants_witness :
    (handleHealthCheck (examplePlant (some [3]) 3) "img"
        (Except.ok
          { isMatch := false, mismatchMessage := some "This photo does not match.",
            healthScore := none, overallAssessment := none, positiveSigns := none,
            potentialIssues := none, recommendations := none })
        { plants := [examplePlant (some [3]) 3], selectedPlant := none,
          healthReport := none, error := none, isLoading := false,
          healthCheckImageUrl := none, healthCheckModalOpen := false }).plants
      = [examplePlant (some [3]) 3] ∧
    mismatchTextShown
        { isMatch := false, mismatchMessage := some "This photo does not match.",
          healthScore := none, overallAssessment := none, positiveSigns := none,
          potentialIssues := none, recommendations := none }
      = some "This photo does not match." := by
  have h := c8_healthCheck_never_mutates_plants (examplePlant (some [3]) 3) "img"
    (Except.ok
      { isMatch := false, mismatchMessage := some "This photo does not match.",
        healthScore := none, overallAssessment := none, positiveSigns := none,
        potentialIssues := none, recommendations := none })
    { plants := [examplePlant (some [3]) 3], selectedPlant := none,
      healthReport := none, error := none, isLoading := false,
      healthCheckImageUrl := none, healthCheckModalOpen := false }
  exact ⟨h.1, (h.2 _ rfl).1⟩

/-! ## C9 -/

/-- The full interval list computed by the chart before the `.slice(-8)`
display cut, written as the interval values only. -/
def allChartIntervals (history : List Int) : List Int :=
  List.zipWith
    (fun dateCurrent datePrevious =>
      ceilDiv ((dateCurrent - datePrevious).natAbs : Int) msPerDay)
    (history.reverse.drop 1) history.reverse

/-- Counterexample to C9 as stated: a 10-timestamp history (newest first)
whose oldest, dropped interval is 100 days and whose 8 retained intervals
are all 1 day, with `idealFrequency = 2`.  The code scales by the maximum
over ALL computed intervals — `max(100, 2) * 1.2 = 120` — not by the
maximum over the retained ones, which the claim's formula would make
`max(1, 2) * 1.2 = 2.4`. -/
theorem c9_scale_counterexample :
    (wateringChartMemo
        [108 * msPerDay, 107 * msPerDay, 106 * msPerDay, 105 * msPerDay,
         104 * msPerDay, 103 * msPerDay, 102 * msPerDay, 101 * msPerDay,
         100 * msPerDay, 0] 2).2 = 120 ∧
    retainedScaleSpec
        [108 * msPerDay, 107 * msPerDay, 106 * msPerDay, 105 * msPerDay,
         104 * msPerDay, 103 * msPerDay, 102 * msPerDay, 101 * msPerDay,
         100 * msPerDay, 0] 2 = 12 / 5 ∧
    (120 : ℚ) ≠ 12 / 5 := by
  refine ⟨?_, ?_, by norm_num⟩
  · norm_num [wateringChartMemo, jsMax, ceilDiv, msPerDay]
  · norm_num [retainedScaleSpec, wateringChartMemo, jsMax, ceilDiv, msPerDay]

/-- C9 amended: for a history of at least 2 timestamps and a positive
`idealFrequency`, the chart's vertical scale is
`max(max(ALL computed intervals, floored at 0), idealFrequency) * 1.2` —
the maximum ranges over every consecutive interval of the full history,
including intervals older than the 8 retained for display — and
consequently the ideal-frequency reference line is always at or below the
top of the scale. -/
theorem c9_scale_amended (history : List Int) (idealFrequency : Int)
    (h2 : 2 ≤ history.length) (hpos : 0 < idealFrequency) :
    (wateringChartMemo history idealFrequency).2
      = ((jsMax ((allChartIntervals history).foldr jsMax 0) idealFrequency : Int) : ℚ)
          * (6 / 5) ∧
    (idealFrequency : ℚ) ≤ (wateringChartMemo history idealFrequency).2 := by
  have hlen : ¬ history.length < 2 := by omega
  have heq : (wateringChartMemo history idealFrequency).2
      = ((jsMax ((allChartIntervals history).foldr jsMax 0) idealFrequency : Int) : ℚ)
          * (6 / 5) := by
    simp only [wateringChartMemo, hlen, if_false, allChartIntervals,
      List.map_zipWith]
  refine ⟨heq, ?_⟩
  rw [heq, jsMax_eq_max]
  have hbase : (idealFrequency : ℚ)
      ≤ ((max ((allChartIntervals history).foldr jsMax 0) idealFrequency : Int) : ℚ) := by
    exact_mod_cast le_max_right _ idealFrequency
  have hnonneg : (0 : ℚ)
      ≤ ((max ((allChartIntervals history).foldr jsMax 0) idealFrequency : Int) : ℚ) := by
    have : (0 : ℚ) ≤ (idealFrequency : ℚ) := by exact_mod_cast hpos.le
    linarith
  nlinarith

/-- Witness for C9 (amended) on the two-timestamp history `[1 day, 0]` with
ideal frequency 7. -/
theorem c9_scale_amended_witness :
    (wateringChartMemo [msPerDay, 0] 7).2
      = ((jsMax ((allChartIntervals [msPerDay, 0]).foldr jsMax 0) 7 : Int) : ℚ)
          * (6 / 5) ∧
    ((7 : Int) : ℚ) ≤ (wateringChartMemo [msPerDay, 0] 7).2 := by
  have h := c9_scale_amended [msPerDay, 0] 7 (by decide) (by decide)
  exact ⟨h.1, h.2⟩

/-! ## C10 -/

/-- C10: watering a plant by id is a targeted, order-preserving update: the
list's length (and positional order) is preserved; at every position whose
record's id differs from the target the record is returned unchanged; at a
position whose id matches, every field other than `lastWatered` and
`wateringHistory` is unchanged while `lastWatered` becomes `now` and the
history is the bounded prepend; and when no stored plant has the given id
the whole list is unchanged. -/
theorem c10_waterPlant_targeted_update (plants : List Plant) (plantId : String)
    (now : Int) :
    (handleWaterPlant plantId now plants).length = plants.length ∧
    (∀ (i : Nat) (p : Plant), plants[i]? = some p →
      (p.id ≠ plantId → (handleWaterPlant plantId now plants)[i]? = some p) ∧
      (p.id = plantId → ∃ q,
        (handleWaterPlant plantId now plants)[i]? = some q ∧
        q.id = p.id ∧ q.name = p.name ∧ q.nickname = p.nickname ∧
        q.wateringFrequency = p.wateringFrequency ∧ q.sunlight = p.sunlight ∧
        q.temperature = p.temperature ∧ q.imageUrl = p.imageUrl ∧
        q.notes = p.notes ∧ q.growthHistory = p.growthHistory ∧
        q.lastWatered = now ∧
        q.wateringHistory = some ((now :: effectiveHistory p).take 10))) ∧
    ((∀ p ∈ plants, p.id ≠ plantId) → handleWaterPlant plantId now plants = plants) := by
  refine ⟨List.length_map plants _, ?_, ?_⟩
  · intro i p hip
    have hmap : (handleWaterPlant plantId now plants)[i]?
        = some (if p.id = plantId then waterPlantRecord now p else p) := by
      unfold handleWaterPlant
      rw [List.getElem?_map, hip]
      rfl
    constructor
    · intro hne
      rw [hmap, if_neg hne]
    · intro heq
      refine ⟨waterPlantRecord now p, ?_, rfl, rfl, rfl, rfl, rfl, rfl, rfl, rfl,
        rfl, rfl, waterPlantRecord_history now p⟩
      rw [hmap, if_pos heq]
  · intro hnone
    unfold handleWaterPlant
    have : ∀ p ∈ plants,
        (if p.id = plantId then waterPlantRecord now p else p) = p := by
      intro p hp
      rw [if_neg (hnone p hp)]
    rw [List.map_congr_left this, List.map_id']

/-- Witness for C10 on a two-plant list where only the first id matches. -/
theorem c10_waterPlant_targeted_update_witness :
    (handleWaterPlant "p1" 9
        [examplePlant (some [3]) 3,
         { examplePlant (some [4]) 4 with id := "p2" }])[1]?
      = some { examplePlant (some [4]) 4 with id := "p2" } ∧
    (∃ q, (handleWaterPlant "p1" 9
        [examplePlant (some [3]) 3,
         { examplePlant (some [4]) 4 with id := "p2" }])[0]? = some q ∧
      q.id = (examplePlant (some [3]) 3).id ∧
      q.name = (examplePlant (some [3]) 3).name ∧
      q.nickname = (examplePlant (some [3]) 3).nickname ∧
      q.wateringFrequency = (examplePlant (some [3]) 3).wateringFrequency ∧
      q.sunlight = (examplePlant (some [3]) 3).sunlight ∧
      q.temperature = (examplePlant (some [3]) 3).temperature ∧
      q.imageUrl = (examplePlant (some [3]) 3).imageUrl ∧
      q.notes = (examplePlant (some [3]) 3).notes ∧
      q.growthHistory = (examplePlant (some [3]) 3).growthHistory ∧
      q.lastWatered = 9 ∧
      q.wateringHistory
        = some ((9 :: effectiveHistory (examplePlant (some [3]) 3)).take 10)) ∧
    handleWaterPlant "zzz" 9 [examplePlant (some [3]) 3]
      = [examplePlant (some [3]) 3] := by
  have h := c10_waterPlant_targeted_update
    [examplePlant (some [3]) 3, { examplePlant (some [4]) 4 with id := "p2" }]
    "p1" 9
  have h0 := h.2.1 0 (examplePlant (some [3]) 3) rfl
  have h1 := h.2.1 1 { examplePlant (some [4]) 4 with id := "p2" } rfl
  have hn := (c10_waterPlant_targeted_update [examplePlant (some [3]) 3] "zzz" 9).2.2
    (by decide)
  exact ⟨h1.1 (by decide), h0.2 rfl, hn⟩
